import Mathlib

/-!
Shallow embedding of the IMAP mail adapter
(`src/apps/server/src/lib/driver/imap.ts`, class `ImapMailManager`).

Pure fragments of the adapter (host derivation, folder normalization,
page slicing, flag conversion, the error classifier) become Lean
functions; the effectful operations become explicit action traces and
outcome-parameterized runs. JavaScript optional values are `Option`,
JavaScript falsiness of the empty string is modelled where the source
relies on it.
-/

namespace ImapDriver

/-! ## String helpers (JavaScript `includes` / `startsWith` on strings) -/

/-- `listHasPre sub hay` is true when `sub` is a prefix of `hay`. -/
def listHasPre (sub hay : List Char) : Bool :=
  match sub, hay with
  | [], _ => true
  | _ :: _, [] => false
  | a :: as, b :: bs => a == b && listHasPre as bs

/-- `listHasSub sub hay` is true when `sub` occurs contiguously in `hay`
(the semantics of JavaScript `String.prototype.includes`). -/
def listHasSub (sub hay : List Char) : Bool :=
  match hay with
  | [] => listHasPre sub []
  | _ :: bs => listHasPre sub hay || listHasSub sub bs

/-- JavaScript `hay.includes(sub)`. -/
def strIncludes (hay sub : String) : Bool :=
  listHasSub sub.data hay.data

/-- JavaScript `hay.startsWith(sub)`. -/
def strStarts (hay sub : String) : Bool :=
  listHasPre sub.data hay.data

/-- JavaScript `s?.includes(sub)` under optional chaining:
`undefined` short-circuits to a falsy result. -/
def optIncludes (s : Option String) (sub : String) : Bool :=
  match s with
  | none => false
  | some m => strIncludes m sub

/-- JavaScript `s?.startsWith(sub)` under optional chaining. -/
def optStarts (s : Option String) (sub : String) : Bool :=
  match s with
  | none => false
  | some c => strStarts c sub

/-- JavaScript string interpolation of a possibly-undefined value:
`interpolating undefined` prints the text `undefined`. -/
def jsStr : Option String → String
  | some s => s
  | none => "undefined"

/-- JavaScript `a || b` on strings: the empty string is falsy. -/
def jsOrStr (a : Option String) (b : String) : String :=
  match a with
  | none => b
  | some "" => b
  | some s => s

/-- Split a character list at every occurrence of `sep` (the semantics
of JavaScript `String.prototype.split` with a one-character separator):
the empty list splits to one empty piece. -/
def splitOnChar (sep : Char) : List Char → List (List Char)
  | [] => [[]]
  | c :: cs =>
    if c == sep then [] :: splitOnChar sep cs
    else
      match splitOnChar sep cs with
      | [] => [[c]]
      | piece :: pieces => (c :: piece) :: pieces

/-- JavaScript `s.split(sep)` for a one-character separator. -/
def strSplitOn (sep : Char) (s : String) : List String :=
  (splitOnChar sep s.data).map (fun cs => ⟨cs⟩)

/-- ASCII lowercasing of one character, as `toLowerCase` acts on the
characters the adapter compares. -/
def lowerChar (c : Char) : Char :=
  if 65 ≤ c.toNat ∧ c.toNat ≤ 90 then Char.ofNat (c.toNat + 32) else c

/-- JavaScript `s.toLowerCase()` over ASCII. -/
def strToLower (s : String) : String :=
  ⟨s.data.map lowerChar⟩

/-- The digit value of a decimal digit character, `none` otherwise. -/
def digitVal (c : Char) : Option Nat :=
  if 48 ≤ c.toNat ∧ c.toNat ≤ 57 then some (c.toNat - 48) else none

/-- Parse a non-empty all-digit character list as a decimal number. -/
def parseNatDigits : List Char → Option Nat → Option Nat
  | [], acc => acc
  | c :: cs, acc =>
    match digitVal c with
    | none => none
    | some d => parseNatDigits cs (some ((acc.getD 0) * 10 + d))

/-- JavaScript `parseInt(s, 10)` restricted to the whole-string decimal
case the adapter exercises; NaN is `none`. -/
def jsParseNat (s : String) : Option Nat :=
  parseNatDigits s.data none

/-! ## Host derivation (`getImapHost` / `getSmtpHost`, imap.ts lines 42 to 86) -/

/-- `email.split('@')[1].toLowerCase()` of the source. -/
def emailDomain (email : String) : String :=
  strToLower ((strSplitOn '@' email).getD 1 "")

/-- `getImapHost` of the source: a fixed provider table keyed on the
lowercased mail domain, with the fallback `imap.<domain>`. -/
def getImapHost (email : String) : String :=
  match emailDomain email with
  | "gmail.com" => "imap.gmail.com"
  | "outlook.com" => "outlook.office365.com"
  | "hotmail.com" => "outlook.office365.com"
  | "live.com" => "outlook.office365.com"
  | "yahoo.com" => "imap.mail.yahoo.com"
  | "aol.com" => "imap.aol.com"
  | "icloud.com" => "imap.mail.me.com"
  | d => "imap." ++ d

/-- `getSmtpHost` of the source: the SMTP side of the same table, with
the fallback `smtp.<domain>`. -/
def getSmtpHost (email : String) : String :=
  match emailDomain email with
  | "gmail.com" => "smtp.gmail.com"
  | "outlook.com" => "smtp.office365.com"
  | "hotmail.com" => "smtp.office365.com"
  | "live.com" => "smtp.office365.com"
  | "yahoo.com" => "smtp.mail.yahoo.com"
  | "aol.com" => "smtp.aol.com"
  | "icloud.com" => "smtp.mail.me.com"
  | d => "smtp." ++ d

/-! ## Adapter construction (constructor, imap.ts lines 18 to 40) -/

/-- `ManagerConfig.auth` as the constructor and `withErrorHandler` read it. -/
structure ManagerAuth where
  userId : Option String
  accessToken : String
  refreshToken : String
  email : String
deriving DecidableEq

/-- The configuration object the constructor receives. -/
structure ManagerConfig where
  auth : ManagerAuth
deriving DecidableEq

/-- The connection parameters the constructor fixes for the IMAP client
and the SMTP transport. -/
structure ConstructedClients where
  imapUser : String
  imapPassword : String
  imapHost : String
  imapPort : Nat
  imapTls : Bool
  smtpHost : String
  smtpPort : Nat
  smtpSecure : Bool
  smtpUser : String
  smtpPass : String
deriving DecidableEq

/-- The `ImapMailManager` constructor: both clients are configured from
`config.auth.email` and `config.auth.accessToken` alone; the hosts are
always derived and the ports are the literals 993 and 465. -/
def mkImapMailManager (config : ManagerConfig) : ConstructedClients :=
  { imapUser := config.auth.email
    imapPassword := config.auth.accessToken
    imapHost := getImapHost config.auth.email
    imapPort := 993
    imapTls := true
    smtpHost := getSmtpHost config.auth.email
    smtpPort := 465
    smtpSecure := true
    smtpUser := config.auth.email
    smtpPass := config.auth.accessToken }

/-- Modelled from the spec: optional explicit server host/port overrides,
absent from the adapter sources. The spec sentence is: Configuration
consumed at construction: account email, credential secret, (optionally)
explicit server host/port overrides — absent explicit overrides, host is
derived from the email domain via a fixed provider table with a
`<service>.<domain>` fallback for unknown domains. The field names follow
the connection route schema (`imapLoginSchema`). -/
structure SpecOverrides where
  imapServer : Option String
  smtpServer : Option String
  imapPort : Option Nat
  smtpPort : Option Nat
deriving DecidableEq

/-- Modelled from the spec: a constructor that honors explicit overrides
when given and falls back to the derived hosts and default ports
otherwise, for comparison with `mkImapMailManager` of the source. -/
def mkImapMailManagerSpec (config : ManagerConfig) (ov : SpecOverrides) :
    ConstructedClients :=
  { imapUser := config.auth.email
    imapPassword := config.auth.accessToken
    imapHost := ov.imapServer.getD (getImapHost config.auth.email)
    imapPort := ov.imapPort.getD 993
    imapTls := true
    smtpHost := ov.smtpServer.getD (getSmtpHost config.auth.email)
    smtpPort := ov.smtpPort.getD 465
    smtpSecure := true
    smtpUser := config.auth.email
    smtpPass := config.auth.accessToken }

/-! ## Folder normalization (`normalizeMailbox`, imap.ts lines 286 to 305) -/

/-- `normalizeMailbox` of the source: a case-insensitive table from
user-facing folder names to IMAP mailbox names; unknown names pass
through unchanged (in their original case). -/
def normalizeMailbox (folder : String) : String :=
  match strToLower folder with
  | "inbox" => "INBOX"
  | "sent" => "Sent"
  | "drafts" => "Drafts"
  | "bin" => "Trash"
  | "trash" => "Trash"
  | "spam" => "Spam"
  | "archive" => "Archive"
  | _ => folder

/-! ## Identifier decoding (as `get` / `delete` read ids, imap.ts lines 182 to 184) -/

/-- The mailbox part of an id: `parts[0] || 'INBOX'` of the source
(the empty first part is falsy and falls back to INBOX). -/
def decodeMailbox (id : String) : String :=
  match (strSplitOn ':' id).getD 0 "" with
  | "" => "INBOX"
  | m => m

/-- The numeric part of an id: `parseInt(parts[1], 10)`; a missing or
non-numeric part is NaN, modelled as `none`. -/
def decodeUid (id : String) : Option Nat :=
  jsParseNat ((strSplitOn ':' id).getD 1 "")

/-- `encode(mailbox, uid)`: the id format `mailbox:uid` the adapter
emits in `list` and `listDrafts`. -/
def encodeId (mailbox : String) (n : Nat) : String :=
  mailbox ++ ":" ++ toString n

/-! ## Error classifier (`withErrorHandler`, imap.ts lines 959 to 1064) -/

/-- The fields of a raw thrown error that `withErrorHandler` inspects:
`error.code`, `error.message` and `error.response.status`, each possibly
absent. -/
structure RawError where
  code : Option String
  message : Option String
  responseStatus : Option String
deriving DecidableEq

/-- The `StandardizedError` payload built by `withErrorHandler`. -/
structure StandardizedError where
  code : String
  status : Nat
  operation : String
  message : String
  fatal : Bool
deriving DecidableEq

/-- A classification outcome: the structured error thrown plus whether
the stored connection record was deleted on the way out. -/
structure ClassifyResult where
  err : StandardizedError
  deletesConnection : Bool
deriving DecidableEq

/-- The connection signature of the classifier:
`code === 'ECONNREFUSED' || code === 'ETIMEDOUT' || code === 'ENOTFOUND'`. -/
def matchesConnSig (e : RawError) : Bool :=
  e.code == some "ECONNREFUSED" || e.code == some "ETIMEDOUT" ||
    e.code == some "ENOTFOUND"

/-- The authentication signature:
`code === 'AUTHENTICATIONFAILED' || code === 'INVALIDCREDENTIALS'`. -/
def matchesAuthSig (e : RawError) : Bool :=
  e.code == some "AUTHENTICATIONFAILED" || e.code == some "INVALIDCREDENTIALS"

/-- The TLS signature: `code === 'ETLSNOTCAPABLE' || code === 'ESSLNOTCAPABLE'`. -/
def matchesTlsSig (e : RawError) : Bool :=
  e.code == some "ETLSNOTCAPABLE" || e.code == some "ESSLNOTCAPABLE"

/-- The quota signature:
`message?.includes('quota') || message?.includes('storage')`. -/
def matchesQuotaSig (e : RawError) : Bool :=
  optIncludes e.message "quota" || optIncludes e.message "storage"

/-- The SMTP signature: `code?.startsWith('SMTP')`. -/
def matchesSmtpSig (e : RawError) : Bool :=
  optStarts e.code "SMTP"

/-- The capability signature:
`message?.includes('not supported') || message?.includes('capability')`. -/
def matchesCapSig (e : RawError) : Bool :=
  optIncludes e.message "not supported" || optIncludes e.message "capability"

/-- `FatalErrors.includes(v)` for a possibly-absent value:
`includes(undefined)` is false. -/
def optMem (l : List String) (v : Option String) : Bool :=
  match v with
  | none => false
  | some s => l.contains s

/-- `FatalErrors` as the repository pins it for this unit (the mock of
`./utils` in imap.test.ts line 10). -/
def FatalErrors : List String :=
  ["invalid_grant", "invalid_credentials"]

/-- The catch branch of `withErrorHandler`: the ordered, first-match-wins
classification of a raw error. `hasUserId` is `config.auth?.userId` being
present, which gates the `deleteActiveConnection` call; `fatalCodes` is
the `FatalErrors` allowlist the final branch consults. -/
def classifyImapError (operation : String) (e : RawError) (hasUserId : Bool)
    (fatalCodes : List String) : ClassifyResult :=
  if matchesConnSig e then
    { err := { code := "CONNECTION_REFUSED", status := 503, operation
               message := "Connection to IMAP server failed: " ++ jsStr e.message
               fatal := true }
      deletesConnection := false }
  else if matchesAuthSig e then
    { err := { code := "AUTHENTICATION_ERROR", status := 401, operation
               message := "IMAP authentication failed. Please check your credentials."
               fatal := true }
      deletesConnection := hasUserId }
  else if matchesTlsSig e then
    { err := { code := "TLS_ERROR", status := 502, operation
               message := "The IMAP server does not support secure connections."
               fatal := false }
      deletesConnection := false }
  else if matchesQuotaSig e then
    { err := { code := "QUOTA_ERROR", status := 507, operation
               message := "Email storage quota exceeded."
               fatal := false }
      deletesConnection := false }
  else if matchesSmtpSig e then
    { err := { code := "SMTP_ERROR", status := 502, operation
               message := "Email sending failed: " ++ jsStr e.message
               fatal := false }
      deletesConnection := false }
  else if matchesCapSig e then
    { err := { code := "CAPABILITY_ERROR", status := 501, operation
               message := "The IMAP server doesn\x27t support required features: " ++
                 jsStr e.message
               fatal := false }
      deletesConnection := false }
  else
    { err := { code := "UNKNOWN_IMAP_ERROR", status := 500, operation
               message := "IMAP operation " ++ operation ++ " failed: " ++ jsStr e.message
               fatal := optMem fatalCodes e.code || optMem fatalCodes e.responseStatus }
      deletesConnection := false }

/-! ## Search and pagination (`list`, imap.ts lines 307 to 375) -/

/-- Descending insertion of a UID into an already descending list. -/
def insertDesc (x : Nat) : List Nat → List Nat
  | [] => [x]
  | y :: ys => if x ≥ y then x :: y :: ys else y :: insertDesc x ys

/-- `[...uids].sort((a, b) => b - a)` of the source: the matching UID
set in descending order. -/
def sortDesc : List Nat → List Nat
  | [] => []
  | x :: xs => insertDesc x (sortDesc xs)

/-- `parseInt(pageToken.split(':')[0], 10)` of the source; the `list`
code stores it in `startUid` (initialized to 1) and then never reads it. -/
def parseStartUid (pageToken : Option String) : Nat :=
  match pageToken with
  | none => 1
  | some t => (jsParseNat ((strSplitOn ':' t).getD 0 "")).getD 0

/-- What one `list` call returns at the UID level. -/
structure ListPage where
  pageUids : List Nat
  nextPageToken : Option String
deriving DecidableEq

/-- The pagination core of `list` (imap.ts lines 322 to 368): parse the
page token into `startUid`, sort the matching UIDs descending, slice
with `sortedUids.slice(0, maxResults)` — the slice ignores `startUid`,
mirroring the source, where the parsed cursor is dead — and emit
`lastReturnedUid - 1 : maxResults` as the next token whenever more UIDs
remain beyond the page. When `maxResults = 0` and UIDs remain, the
source computes `undefined - 1 = NaN` and emits a `NaN:` token; the
model reproduces that via the `getLast?` fallback. -/
def listPage (uids : List Nat) (maxResults : Nat) (pageToken : Option String) :
    ListPage :=
  let _startUid := parseStartUid pageToken
  let sortedUids := sortDesc uids
  let paginatedUids := sortedUids.take maxResults
  let nextPageToken : Option String :=
    if maxResults < sortedUids.length then
      match paginatedUids.getLast? with
      | some lastReturned => some (toString (lastReturned - 1) ++ ":" ++ toString maxResults)
      | none => some ("NaN:" ++ toString maxResults)
    else none
  { pageUids := paginatedUids, nextPageToken }

/-! ## Message fetch and ids (`fetchMessages`, imap.ts lines 130 to 165,
and the id construction of `list`, line 357) -/

/-- A message as the selected mailbox holds it: its IMAP UID, its
current sequence number, and its raw RFC822 text. -/
structure MailboxMsg where
  uid : Nat
  seqno : Nat
  raw : String
deriving DecidableEq

/-- What `fetchMessages` pushes per message event:
`messages.push({ uid: seqno, raw: buffer })` — the field named `uid`
is populated from the sequence number the fetch event reports, not from
the IMAP UID the fetch was addressed by. -/
structure FetchedMsg where
  uid : Nat
  raw : String
deriving DecidableEq

/-- `fetchMessages(uids, ...)`: the client fetches by UID (the requested
messages are those whose IMAP UID is in `uids`), and for each one the
source records `{ uid: seqno, raw: buffer }`. -/
def fetchMessages (mbox : List MailboxMsg) (uids : List Nat) : List FetchedMsg :=
  (mbox.filter (fun m => uids.contains m.uid)).map
    (fun m => { uid := m.seqno, raw := m.raw })

/-- The UID page `list` fetches for a mailbox: all matching UIDs (the
`ALL` search), sorted descending, first `maxResults`. -/
def listPageUids (mbox : List MailboxMsg) (maxResults : Nat) : List Nat :=
  (sortDesc (mbox.map (fun m => m.uid))).take maxResults

/-- The ids `list` returns: `${normalizedMailbox}:${message.uid}` over the
fetched messages, where `message.uid` is the recorded sequence number. -/
def listIds (mbox : List MailboxMsg) (folder : String) (maxResults : Nat) :
    List String :=
  (fetchMessages mbox (listPageUids mbox maxResults)).map
    (fun m => encodeId (normalizeMailbox folder) m.uid)

/-- The messages a UID-addressed operation (`get`, `delete`, flag updates)
acts on once the id has been decoded to the number `n`: the mailbox
messages whose IMAP UID equals `n`. -/
def uidTargets (mbox : List MailboxMsg) (n : Nat) : List MailboxMsg :=
  mbox.filter (fun m => m.uid == n)

/-! ## Flag conversion (`convertToAppMessage`, imap.ts lines 219 to 284) -/

/-- The fields of the parsed email object that the modelled part of
`convertToAppMessage` reads. -/
structure ParsedEmailInput where
  subject : Option String
  flags : Option (List String)
deriving DecidableEq

/-- The modelled slice of the normalized message. -/
structure AppMessage where
  id : String
  title : String
  subject : String
  unread : Bool
  totalReplies : Nat
  tagId : String
  tagName : String
deriving DecidableEq

/-- The modelled slice of `convertToAppMessage`:
`unread: !email.flags || !email.flags.includes('\\Seen')`,
`title`/`subject`: `email.subject || '(no subject)'`, `totalReplies: 1`,
and the owning mailbox as the single folder tag. -/
def convertToAppMessage (email : ParsedEmailInput) (id mailbox : String) :
    AppMessage :=
  { id := id
    title := jsOrStr email.subject "(no subject)"
    subject := jsOrStr email.subject "(no subject)"
    unread := match email.flags with
      | none => true
      | some fs => !(fs.contains "\\Seen")
    totalReplies := 1
    tagId := mailbox
    tagName := mailbox }

/-! ## Delete with fallback (`delete`, imap.ts lines 470 to 496) -/

/-- The promise body of `delete` after the mailbox is open: try
`imap.move([uid], 'Trash', ...)`; on a move error try
`imap.addFlags([uid], '\\Deleted', ...)`; reject only with the second
error. `moveErr` and `flagErr` are the callback errors of the two
commands (`none` = the command succeeded). -/
def deleteRun (moveErr : Option String) (flagErr : Option String) :
    Except String Unit :=
  match moveErr with
  | none => Except.ok ()
  | some _ =>
    match flagErr with
    | none => Except.ok ()
    | some err2 => Except.error err2

/-! ## Send path (`create` / `saveSentEmail`, imap.ts lines 377 to 412) -/

/-- The environment outcomes the send path depends on: whether the first
`smtp.sendMail` succeeds, and whether `connectImap` and
`openMailbox('Sent')` inside `saveSentEmail` succeed. -/
structure SendOutcome where
  firstSendOk : Bool
  saveConnectOk : Bool
  saveOpenOk : Bool
deriving DecidableEq

/-- The observable effects of one `create` call. -/
structure CreateRun where
  smtpSends : Nat
  imapAppends : Nat
  succeeded : Bool
deriving DecidableEq

/-- `saveSentEmail`: connect, open `Sent`, then call `smtp.sendMail`
again with an explicit envelope and only log — no IMAP APPEND command is
ever issued. Every error is caught inside, so the pair returned is the
count of sendMail invocations and of APPEND commands reached. -/
def saveSentEmailRun (connectOk openOk : Bool) : Nat × Nat :=
  if connectOk then
    if openOk then (1, 0) else (0, 0)
  else (0, 0)

/-- `create`: prepare, `smtp.sendMail`, then `saveSentEmail`; the call
succeeds exactly when the first send does, since `saveSentEmail`
swallows its own failures. -/
def createRun (o : SendOutcome) : CreateRun :=
  if o.firstSendOk then
    let saved := saveSentEmailRun o.saveConnectOk o.saveOpenOk
    { smtpSends := 1 + saved.1, imapAppends := saved.2, succeeded := true }
  else
    { smtpSends := 1, imapAppends := 0, succeeded := false }

/-! ## Session states and operation traces (`connectImap`, imap.ts lines
92 to 104, and the public operations) -/

/-- The connection states of a session (spec data model, section 3). -/
inductive SessionState where
  | disconnected
  | connecting
  | ready
  | errored
deriving DecidableEq

/-- The primitive protocol commands the adapter issues. -/
inductive DriverAction where
  | connect
  | openBox (mailbox : String)
  | search
  | fetchMsgs
  | move (target : String)
  | addFlags (flag : String)
  | delFlags (flag : String)
  | getBoxes
  | addBox (name : String)
  | renameBox (oldName newName : String)
  | delBox (name : String)
  | smtpSend
deriving DecidableEq

/-- Whether an action is an IMAP command (everything but an SMTP send). -/
def DriverAction.isImap : DriverAction → Bool
  | .smtpSend => false
  | _ => true

/-- `connectImap` of the source: it registers the ready and error
handlers and then calls `this.imap.connect()` unconditionally — there is
no check of the current state, so the issued commands are the same from
every state, the ready state included. -/
def connectImapTrace (_s : SessionState) : List DriverAction :=
  [.connect]

/-- The id prefix as the loop operations read it: `parts[0]` with no
INBOX fallback (imap.ts lines 515, 543, 566). -/
def idMailboxPart (id : String) : String :=
  (strSplitOn ':' id).getD 0 ""

/-- The command trace of `get(id)` (success path). -/
def getTrace (id : String) : List DriverAction :=
  [.connect, .openBox (decodeMailbox id), .fetchMsgs]

/-- The command trace of `list(params)` (success path). -/
def listTrace (folder : String) : List DriverAction :=
  [.connect, .openBox (normalizeMailbox folder), .search, .fetchMsgs]

/-- The command trace of `delete(id)`: connect, open, move to Trash, and
on a move failure the fallback flag set. -/
def deleteTrace (id : String) (moveFails : Bool) : List DriverAction :=
  .connect :: .openBox (decodeMailbox id) ::
    (if moveFails then [.move "Trash", .addFlags "\\Deleted"]
     else [.move "Trash"])

/-- The command trace of `create(data)`: the SMTP send comes first, then
`saveSentEmail` connects, opens Sent and sends again. -/
def createTrace : List DriverAction :=
  [.smtpSend, .connect, .openBox "Sent", .smtpSend]

/-- The command trace of `modifyLabels(ids, options)`: per id, open its
mailbox and move to the first requested label; nothing when no label is
added. -/
def modifyLabelsTrace (ids : List String) (addLabels : List String) :
    List DriverAction :=
  .connect :: ids.flatMap (fun id =>
    match addLabels with
    | [] => []
    | target :: _ => [.openBox (idMailboxPart id), .move target])

/-- The command trace of `markAsRead(ids)`. -/
def markAsReadTrace (ids : List String) : List DriverAction :=
  .connect :: ids.flatMap (fun id =>
    [.openBox (idMailboxPart id), .addFlags "\\Seen"])

/-- The command trace of `markAsUnread(ids)`. -/
def markAsUnreadTrace (ids : List String) : List DriverAction :=
  .connect :: ids.flatMap (fun id =>
    [.openBox (idMailboxPart id), .delFlags "\\Seen"])

/-- The command trace of `createDraft(data)`: connect and open Drafts;
no APPEND is issued (the draft id is synthesized client-side). -/
def createDraftTrace : List DriverAction :=
  [.connect, .openBox "Drafts"]

/-- The command trace of `getDraft(id)`. -/
def getDraftTrace : List DriverAction :=
  [.connect, .openBox "Drafts", .fetchMsgs]

/-- The command trace of `listDrafts(params)`. -/
def listDraftsTrace : List DriverAction :=
  [.connect, .openBox "Drafts", .search, .fetchMsgs]

/-- The command trace of `sendDraft(id, data)`: send over SMTP, then run
`delete(id)` which connects on its own. -/
def sendDraftTrace (id : String) (moveFails : Bool) : List DriverAction :=
  .smtpSend :: deleteTrace id moveFails

/-- The command trace of `count()`. -/
def countTrace : List DriverAction :=
  .connect :: (["INBOX", "Sent", "Drafts", "Trash", "Spam", "Archive"].map
    (fun f => .openBox f))

/-- The command trace of `getAttachment(messageId, attachmentId)`: the id
is decoded first, then the adapter connects, opens and fetches. -/
def getAttachmentTrace (messageId : String) : List DriverAction :=
  [.connect, .openBox (idMailboxPart messageId), .fetchMsgs]

/-- The command trace of `getUserLabels()`. -/
def getUserLabelsTrace : List DriverAction :=
  [.connect, .getBoxes]

/-- The command trace of `getLabel(id)`: it answers from the id alone. -/
def getLabelTrace : List DriverAction :=
  []

/-- The command trace of `createLabel(label)`. -/
def createLabelTrace (name : String) : List DriverAction :=
  [.connect, .addBox name]

/-- The command trace of `updateLabel(id, label)`: the rename is skipped
when the name is unchanged. -/
def updateLabelTrace (id name : String) : List DriverAction :=
  .connect :: (if id ≠ name then [.renameBox id name] else [])

/-- The command trace of `deleteLabel(id)`. -/
def deleteLabelTrace (id : String) : List DriverAction :=
  [.connect, .delBox id]

/-- The command trace of `getEmailAliases()` / `getUserInfo()` /
`getTokens()`: no protocol work at all. -/
def noProtocolTrace : List DriverAction :=
  []

/-- A trace does its IMAP work only after a connect: the first IMAP
command of the trace, if any, is the connect itself. -/
def firstImapIsConnect (t : List DriverAction) : Bool :=
  match t.filter DriverAction.isImap with
  | [] => true
  | a :: _ => a == .connect

/-! ## Helper lemmas -/

/-- Prefixhood of character lists is transitive. -/
theorem listHasPre_trans : ∀ (a b c : List Char),
    listHasPre a b = true → listHasPre b c = true → listHasPre a c = true
  | [], _, _, _, _ => rfl
  | _ :: _, [], _, h1, _ => by simp [listHasPre] at h1
  | _ :: _, _ :: _, [], _, h2 => by simp [listHasPre] at h2
  | x :: xs, y :: ys, z :: zs, h1, h2 => by
    simp only [listHasPre, Bool.and_eq_true, beq_iff_eq] at h1 h2 ⊢
    exact ⟨h1.1.trans h2.1, listHasPre_trans xs ys zs h1.2 h2.2⟩

/-- A prefix occurrence is an occurrence. -/
theorem listHasSub_of_pre : ∀ (a h : List Char),
    listHasPre a h = true → listHasSub a h = true
  | a, [], hp => hp
  | a, _ :: _, hp => by
    simp only [listHasSub, Bool.or_eq_true]
    exact Or.inl hp

/-- Occurrence is monotone along prefixhood of the needle: when `b`
occurs in `h` and `a` is a prefix of `b`, `a` occurs in `h` too. -/
theorem listHasSub_mono : ∀ (a b h : List Char),
    listHasPre a b = true → listHasSub b h = true → listHasSub a h = true
  | a, b, [], h1, h2 => listHasSub_of_pre a [] (listHasPre_trans a b [] h1 h2)
  | a, b, c :: cs, h1, h2 => by
    simp only [listHasSub, Bool.or_eq_true] at h2 ⊢
    rcases h2 with h2 | h2
    · exact Or.inl (listHasPre_trans a b (c :: cs) h1 h2)
    · exact Or.inr (listHasSub_mono a b cs h1 h2)

/-- A message containing the text `quota exceeded` contains `quota`. -/
theorem optIncludes_quota (msg : Option String)
    (h : optIncludes msg "quota exceeded" = true) :
    optIncludes msg "quota" = true := by
  cases msg with
  | none => simp [optIncludes] at h
  | some m =>
    simp only [optIncludes, strIncludes] at h ⊢
    exact listHasSub_mono _ _ _ (by decide) h

/-- A trace beginning with a connect does its IMAP work after it. -/
theorem firstImapIsConnect_cons_connect (t : List DriverAction) :
    firstImapIsConnect (DriverAction.connect :: t) = true := by
  simp [firstImapIsConnect, List.filter, DriverAction.isImap]

/-- An SMTP send at the head of a trace is not IMAP work. -/
theorem firstImapIsConnect_cons_smtp (t : List DriverAction) :
    firstImapIsConnect (DriverAction.smtpSend :: t) = firstImapIsConnect t := by
  simp [firstImapIsConnect, List.filter, DriverAction.isImap]

/-! ## Claim theorems -/

/-- C1: the page-token cursor is dead. On the UID set `{5, 3, 9, 1}`
with `maxResults = 2`, the token `4:2` encodes `lastUidExclusive = 4`,
yet the resumed page is `[9, 5]` again: it contains UID 9, which is
greater than or equal to 4, so re-supplying a page token re-returns
UIDs at or above `lastUidExclusive` instead of the first `maxResults`
UIDs strictly below the cursor. -/
theorem imap_list_pagination_ignores_cursor :
    parseStartUid (some "4:2") = 4 ∧
    listPage [5, 3, 9, 1] 2 (some "4:2") =
      { pageUids := [9, 5], nextPageToken := some "4:2" } ∧
    9 ∈ (listPage [5, 3, 9, 1] 2 (some "4:2")).pageUids ∧ 4 ≤ 9 := by
  decide

/-- C2: pagination does not terminate on a set larger than one page.
On the UID set `{5, 3, 9, 1}` with `maxResults = 2` the first call
returns token `4:2`, and the call resumed with that token returns the
very same page `[9, 5]` and the very same token, because the result of
`listPage` does not depend on the supplied token at all — so
`nextPageToken` never becomes null and the concatenated pages never
cover `{3, 1}`. The empty-set edge case of the claim does hold: an
empty UID set yields an empty page and a null token. -/
theorem imap_list_pagination_never_terminates :
    (∀ (uids : List Nat) (maxResults : Nat) (t : Option String),
       listPage uids maxResults t = listPage uids maxResults none) ∧
    (listPage [5, 3, 9, 1] 2 none).nextPageToken = some "4:2" ∧
    listPage [5, 3, 9, 1] 2 (some "4:2") = listPage [5, 3, 9, 1] 2 none ∧
    (listPage [5, 3, 9, 1] 2 (some "4:2")).nextPageToken ≠ none ∧
    (listPage [5, 3, 9, 1] 2 (some "4:2")).pageUids = [9, 5] ∧
    listPage [] 2 none = { pageUids := [], nextPageToken := none } := by
  refine ⟨fun uids maxResults t => rfl, ?_, rfl, ?_, ?_, ?_⟩ <;> decide

/-- C6: the normalized `unread` field is true exactly when the flag set
of the parsed email is absent or does not contain the seen marker: with
flags present, `unread = true ↔ «\Seen» ∉ flags` (so flags including
`\Seen` give `unread = false`), and with flags absent `unread = true`. -/
theorem imap_unread_iff_not_seen :
    (∀ (e : ParsedEmailInput) (id mailbox : String) (fs : List String),
       e.flags = some fs →
         ((convertToAppMessage e id mailbox).unread = true ↔ "\\Seen" ∉ fs)) ∧
    (∀ (e : ParsedEmailInput) (id mailbox : String),
       e.flags = none → (convertToAppMessage e id mailbox).unread = true) := by
  constructor
  · intro e id mailbox fs h
    simp [convertToAppMessage, h]
  · intro e id mailbox h
    simp [convertToAppMessage, h]

/-- C6 witness: a message whose flags include `\Seen` is not unread, a
message with flags `[\Answered]` is unread, and a message with no flag
set at all is unread. -/
theorem imap_unread_iff_not_seen_witness :
    ((convertToAppMessage ⟨some "hello", some ["\\Seen"]⟩ "INBOX:1" "INBOX").unread =
        true ↔ "\\Seen" ∉ ["\\Seen"]) ∧
    ((convertToAppMessage ⟨some "hello", some ["\\Answered"]⟩ "INBOX:2" "INBOX").unread =
        true ↔ "\\Seen" ∉ ["\\Answered"]) ∧
    (convertToAppMessage ⟨some "hello", none⟩ "INBOX:3" "INBOX").unread = true :=
  ⟨imap_unread_iff_not_seen.1 ⟨some "hello", some ["\\Seen"]⟩ "INBOX:1" "INBOX"
      ["\\Seen"] rfl,
   imap_unread_iff_not_seen.1 ⟨some "hello", some ["\\Answered"]⟩ "INBOX:2" "INBOX"
      ["\\Answered"] rfl,
   imap_unread_iff_not_seen.2 ⟨some "hello", none⟩ "INBOX:3" "INBOX" rfl⟩

/-- C7: `delete` resolves when the move succeeds and also when the move
fails but the fallback `\Deleted` flag set succeeds; it rejects, with
the second error, exactly when both the move and the fallback fail. -/
theorem imap_delete_move_or_flag_fallback :
    ∀ (moveErr flagErr : Option String),
      (deleteRun moveErr flagErr = Except.ok () ↔
        (moveErr = none ∨ flagErr = none)) ∧
      (∀ e2 : String, deleteRun moveErr flagErr = Except.error e2 ↔
        (moveErr ≠ none ∧ flagErr = some e2)) := by
  intro moveErr flagErr
  cases moveErr <;> cases flagErr <;> simp [deleteRun]

/-- C3: the ordered classifier sends code `ECONNREFUSED` to
`CONNECTION_REFUSED` with status 503, fatal; code `AUTHENTICATIONFAILED`
to `AUTHENTICATION_ERROR` with status 401, fatal, deleting the stored
connection record exactly when the configuration carries a user id; and
an error matching no earlier (code-based) signature whose message
contains the text `quota exceeded` to `QUOTA_ERROR` with status 507,
not fatal. -/
theorem imap_classifier_signature_mapping :
    (∀ (op : String) (e : RawError) (hasUser : Bool) (fl : List String),
       e.code = some "ECONNREFUSED" →
         ((classifyImapError op e hasUser fl).err.code = "CONNECTION_REFUSED" ∧
          (classifyImapError op e hasUser fl).err.status = 503 ∧
          (classifyImapError op e hasUser fl).err.fatal = true)) ∧
    (∀ (op : String) (e : RawError) (hasUser : Bool) (fl : List String),
       e.code = some "AUTHENTICATIONFAILED" →
         ((classifyImapError op e hasUser fl).err.code = "AUTHENTICATION_ERROR" ∧
          (classifyImapError op e hasUser fl).err.status = 401 ∧
          (classifyImapError op e hasUser fl).err.fatal = true ∧
          (classifyImapError op e hasUser fl).deletesConnection = hasUser)) ∧
    (∀ (op : String) (e : RawError) (hasUser : Bool) (fl : List String),
       matchesConnSig e = false → matchesAuthSig e = false →
       matchesTlsSig e = false →
       optIncludes e.message "quota exceeded" = true →
         ((classifyImapError op e hasUser fl).err.code = "QUOTA_ERROR" ∧
          (classifyImapError op e hasUser fl).err.status = 507 ∧
          (classifyImapError op e hasUser fl).err.fatal = false)) := by
  refine ⟨?_, ?_, ?_⟩
  · intro op e hasUser fl h
    simp [classifyImapError, matchesConnSig, h]
  · intro op e hasUser fl h
    simp [classifyImapError, matchesConnSig, matchesAuthSig, h]
  · intro op e hasUser fl h1 h2 h3 hq
    have hq5 : optIncludes e.message "quota" = true := optIncludes_quota e.message hq
    simp [classifyImapError, matchesQuotaSig, h1, h2, h3, hq5]

/-- C3 witness: the three signature rows at concrete raw errors, with a
user id present so the authentication row also deletes the stored
connection. -/
theorem imap_classifier_signature_mapping_witness :
    ((classifyImapError "list" ⟨some "ECONNREFUSED", some "connect refused", none⟩
        true FatalErrors).err.code = "CONNECTION_REFUSED" ∧
     (classifyImapError "list" ⟨some "ECONNREFUSED", some "connect refused", none⟩
        true FatalErrors).err.status = 503 ∧
     (classifyImapError "list" ⟨some "ECONNREFUSED", some "connect refused", none⟩
        true FatalErrors).err.fatal = true) ∧
    ((classifyImapError "list" ⟨some "AUTHENTICATIONFAILED", some "bad login", none⟩
        true FatalErrors).err.code = "AUTHENTICATION_ERROR" ∧
     (classifyImapError "list" ⟨some "AUTHENTICATIONFAILED", some "bad login", none⟩
        true FatalErrors).err.status = 401 ∧
     (classifyImapError "list" ⟨some "AUTHENTICATIONFAILED", some "bad login", none⟩
        true FatalErrors).err.fatal = true ∧
     (classifyImapError "list" ⟨some "AUTHENTICATIONFAILED", some "bad login", none⟩
        true FatalErrors).deletesConnection = true) ∧
    ((classifyImapError "get" ⟨none, some "user quota exceeded", none⟩
        true FatalErrors).err.code = "QUOTA_ERROR" ∧
     (classifyImapError "get" ⟨none, some "user quota exceeded", none⟩
        true FatalErrors).err.status = 507 ∧
     (classifyImapError "get" ⟨none, some "user quota exceeded", none⟩
        true FatalErrors).err.fatal = false) :=
  ⟨imap_classifier_signature_mapping.1 "list"
      ⟨some "ECONNREFUSED", some "connect refused", none⟩ true FatalErrors rfl,
   imap_classifier_signature_mapping.2.1 "list"
      ⟨some "AUTHENTICATIONFAILED", some "bad login", none⟩ true FatalErrors rfl,
   imap_classifier_signature_mapping.2.2 "get"
      ⟨none, some "user quota exceeded", none⟩ true FatalErrors
      (by decide) (by decide) (by decide) (by decide)⟩

/-- C4 counterexample: the raw error with code `EPIPE`, message
`broken pipe` and `response.status = invalid_grant`, classified against
the pinned `FatalErrors` allowlist, falls to the final branch; its kind
is `UNKNOWN_IMAP_ERROR`, not `UNKNOWN_ERROR` as the claim states, and it
is fatal although its code `EPIPE` is not in the allowlist (the source
also consults `error.response.status`). -/
theorem imap_unknown_error_claim_cex :
    (classifyImapError "list"
        ⟨some "EPIPE", some "broken pipe", some "invalid_grant"⟩
        true FatalErrors).err.code ≠ "UNKNOWN_ERROR" ∧
    (classifyImapError "list"
        ⟨some "EPIPE", some "broken pipe", some "invalid_grant"⟩
        true FatalErrors).err.code = "UNKNOWN_IMAP_ERROR" ∧
    (classifyImapError "list"
        ⟨some "EPIPE", some "broken pipe", some "invalid_grant"⟩
        true FatalErrors).err.fatal = true ∧
    FatalErrors.contains "EPIPE" = false := by
  decide

/-- C4 amended: a raw error matching none of the earlier signatures is
classified with kind `UNKNOWN_IMAP_ERROR` and status 500, and is fatal
exactly when its code or its `response.status` is in the configured
fatal-code allowlist. -/
theorem imap_unknown_error_branch :
    ∀ (op : String) (e : RawError) (hasUser : Bool) (fl : List String),
      matchesConnSig e = false → matchesAuthSig e = false →
      matchesTlsSig e = false → matchesQuotaSig e = false →
      matchesSmtpSig e = false → matchesCapSig e = false →
        ((classifyImapError op e hasUser fl).err.code = "UNKNOWN_IMAP_ERROR" ∧
         (classifyImapError op e hasUser fl).err.status = 500 ∧
         ((classifyImapError op e hasUser fl).err.fatal = true ↔
            (optMem fl e.code = true ∨ optMem fl e.responseStatus = true))) := by
  intro op e hasUser fl h1 h2 h3 h4 h5 h6
  simp [classifyImapError, h1, h2, h3, h4, h5, h6]

/-- C4 amended witness: an unmatched raw error whose code is in the
pinned allowlist is fatal in the final branch. -/
theorem imap_unknown_error_branch_witness :
    (classifyImapError "get" ⟨some "invalid_grant", some "token expired", none⟩
        true FatalErrors).err.code = "UNKNOWN_IMAP_ERROR" ∧
    (classifyImapError "get" ⟨some "invalid_grant", some "token expired", none⟩
        true FatalErrors).err.status = 500 ∧
    ((classifyImapError "get" ⟨some "invalid_grant", some "token expired", none⟩
        true FatalErrors).err.fatal = true ↔
      (optMem FatalErrors (some "invalid_grant") = true ∨
       optMem FatalErrors none = true)) :=
  imap_unknown_error_branch "get" ⟨some "invalid_grant", some "token expired", none⟩
    true FatalErrors (by decide) (by decide) (by decide) (by decide)
    (by decide) (by decide)

/-- C5 counterexample: calling `connectImap` on a session already in the
ready state does not return immediately leaving the state alone — it
issues a fresh connect command, because the source has no ready-state
guard. -/
theorem imap_connect_ready_not_noop_cex :
    connectImapTrace SessionState.ready ≠ [] ∧
    connectImapTrace SessionState.ready = [DriverAction.connect] := by
  decide

/-- C5 amended: `connectImap` issues its connect command unconditionally
from every session state (no idempotence guard), and every public
adapter operation does its IMAP work only after that connect: in each
operation trace the first IMAP command, if any, is the connect. -/
theorem imap_connect_always_dials_and_precedes :
    (∀ s : SessionState, connectImapTrace s = [DriverAction.connect]) ∧
    (∀ id, firstImapIsConnect (getTrace id) = true) ∧
    (∀ folder, firstImapIsConnect (listTrace folder) = true) ∧
    firstImapIsConnect createTrace = true ∧
    (∀ id b, firstImapIsConnect (deleteTrace id b) = true) ∧
    (∀ ids adds, firstImapIsConnect (modifyLabelsTrace ids adds) = true) ∧
    (∀ ids, firstImapIsConnect (markAsReadTrace ids) = true) ∧
    (∀ ids, firstImapIsConnect (markAsUnreadTrace ids) = true) ∧
    firstImapIsConnect createDraftTrace = true ∧
    firstImapIsConnect getDraftTrace = true ∧
    firstImapIsConnect listDraftsTrace = true ∧
    (∀ id b, firstImapIsConnect (sendDraftTrace id b) = true) ∧
    firstImapIsConnect countTrace = true ∧
    (∀ m, firstImapIsConnect (getAttachmentTrace m) = true) ∧
    firstImapIsConnect getUserLabelsTrace = true ∧
    firstImapIsConnect getLabelTrace = true ∧
    (∀ n, firstImapIsConnect (createLabelTrace n) = true) ∧
    (∀ i n, firstImapIsConnect (updateLabelTrace i n) = true) ∧
    (∀ i, firstImapIsConnect (deleteLabelTrace i) = true) ∧
    firstImapIsConnect noProtocolTrace = true := by
  refine ⟨fun s => rfl, fun id => ?_, fun folder => ?_, by decide,
    fun id b => ?_, fun ids adds => ?_, fun ids => ?_, fun ids => ?_,
    by decide, by decide, by decide, fun id b => ?_, by decide, fun m => ?_,
    by decide, by decide, fun n => ?_, fun i n => ?_, fun i => ?_, by decide⟩
  · simp only [getTrace]
    exact firstImapIsConnect_cons_connect _
  · simp only [listTrace]
    exact firstImapIsConnect_cons_connect _
  · simp only [deleteTrace]
    exact firstImapIsConnect_cons_connect _
  · simp only [modifyLabelsTrace]
    exact firstImapIsConnect_cons_connect _
  · simp only [markAsReadTrace]
    exact firstImapIsConnect_cons_connect _
  · simp only [markAsUnreadTrace]
    exact firstImapIsConnect_cons_connect _
  · simp only [sendDraftTrace, deleteTrace]
    rw [firstImapIsConnect_cons_smtp]
    exact firstImapIsConnect_cons_connect _
  · simp only [getAttachmentTrace]
    exact firstImapIsConnect_cons_connect _
  · simp only [createLabelTrace]
    exact firstImapIsConnect_cons_connect _
  · simp only [updateLabelTrace]
    exact firstImapIsConnect_cons_connect _
  · simp only [deleteLabelTrace]
    exact firstImapIsConnect_cons_connect _

/-- C8 counterexample: for the account `user@example.com` with an
explicit IMAP server override `mail.example.com`, the spec-modelled
constructor uses the override while the source constructor, which has no
override input, still derives `imap.example.com` — so the adapter does
not consume explicit server overrides at construction. -/
theorem imap_construction_override_cex :
    (mkImapMailManagerSpec ⟨⟨some "u1", "pw", "", "user@example.com"⟩⟩
        ⟨some "mail.example.com", none, none, none⟩).imapHost =
      "mail.example.com" ∧
    (mkImapMailManager ⟨⟨some "u1", "pw", "", "user@example.com"⟩⟩).imapHost =
      "imap.example.com" ∧
    mkImapMailManagerSpec ⟨⟨some "u1", "pw", "", "user@example.com"⟩⟩
        ⟨some "mail.example.com", none, none, none⟩ ≠
      mkImapMailManager ⟨⟨some "u1", "pw", "", "user@example.com"⟩⟩ := by
  decide

/-- C8 amended: the constructor consumes only the account email and the
credential secret; the hosts are always derived from the email domain
via the provider table with the `imap.<domain>` / `smtp.<domain>`
fallback, ports are fixed at 993 and 465, and the spec-modelled
constructor agrees with the source exactly when no override is given. -/
theorem imap_construction_derives_hosts :
    (∀ config : ManagerConfig,
       (mkImapMailManager config).imapHost = getImapHost config.auth.email ∧
       (mkImapMailManager config).smtpHost = getSmtpHost config.auth.email ∧
       (mkImapMailManager config).imapPort = 993 ∧
       (mkImapMailManager config).smtpPort = 465 ∧
       (mkImapMailManager config).imapUser = config.auth.email ∧
       (mkImapMailManager config).imapPassword = config.auth.accessToken) ∧
    (∀ (config : ManagerConfig) (ov : SpecOverrides),
       ov.imapServer = none → ov.smtpServer = none →
       ov.imapPort = none → ov.smtpPort = none →
       mkImapMailManagerSpec config ov = mkImapMailManager config) ∧
    getImapHost "user@gmail.com" = "imap.gmail.com" ∧
    getImapHost "user@outlook.com" = "outlook.office365.com" ∧
    getSmtpHost "user@outlook.com" = "smtp.office365.com" ∧
    getImapHost "user@unknown-host.io" = "imap.unknown-host.io" ∧
    getSmtpHost "user@unknown-host.io" = "smtp.unknown-host.io" := by
  refine ⟨fun config => ⟨rfl, rfl, rfl, rfl, rfl, rfl⟩, ?_, by decide,
    by decide, by decide, by decide, by decide⟩
  intro config ov h1 h2 h3 h4
  obtain ⟨i, s, ip, sp⟩ := ov
  simp only at h1 h2 h3 h4
  subst h1
  subst h2
  subst h3
  subst h4
  rfl

/-- C8 amended witness: with no override given, the spec-modelled
constructor and the source constructor agree on a concrete account. -/
theorem imap_construction_derives_hosts_witness :
    mkImapMailManagerSpec ⟨⟨some "u1", "pw", "", "user@gmail.com"⟩⟩
        ⟨none, none, none, none⟩ =
      mkImapMailManager ⟨⟨some "u1", "pw", "", "user@gmail.com"⟩⟩ :=
  imap_construction_derives_hosts.2.1
    ⟨⟨some "u1", "pw", "", "user@gmail.com"⟩⟩ ⟨none, none, none, none⟩
    rfl rfl rfl rfl

/-- C9 counterexample: when the first SMTP send succeeds but the IMAP
connect inside `saveSentEmail` fails, `create` still succeeds while
`sendMail` was invoked exactly once — so a successful `create` does not
always invoke `sendMail` twice. -/
theorem imap_create_single_send_cex :
    (createRun ⟨true, false, true⟩).succeeded = true ∧
    (createRun ⟨true, false, true⟩).smtpSends = 1 ∧
    (createRun ⟨true, false, true⟩).smtpSends ≠ 2 ∧
    (createRun ⟨true, false, true⟩).imapAppends = 0 := by
  decide

/-- C9 amended: `create` never issues an IMAP APPEND, succeeds exactly
when the first SMTP send does, and on success invokes `sendMail` a
second time (inside `saveSentEmail`, with an explicit envelope) exactly
when the save-path connect and Sent-mailbox open both succeed, otherwise
once. -/
theorem imap_create_resends_never_appends :
    ∀ o : SendOutcome,
      (createRun o).imapAppends = 0 ∧
      (createRun o).succeeded = o.firstSendOk ∧
      (o.firstSendOk = true →
        (createRun o).smtpSends =
          if o.saveConnectOk && o.saveOpenOk then 2 else 1) := by
  intro o
  obtain ⟨f, c, p⟩ := o
  cases f <;> cases c <;> cases p <;> simp [createRun, saveSentEmailRun]

/-- C9 amended witness: on the all-success path `create` performs two
SMTP sends and zero IMAP appends. -/
theorem imap_create_resends_never_appends_witness :
    (createRun ⟨true, true, true⟩).imapAppends = 0 ∧
    (createRun ⟨true, true, true⟩).smtpSends =
      if true && true then 2 else 1 :=
  ⟨(imap_create_resends_never_appends ⟨true, true, true⟩).1,
   (imap_create_resends_never_appends ⟨true, true, true⟩).2.2 rfl⟩

/-- C10: every id `list` returns is `mailbox:seqno` — the numeric
component is the sequence number the fetch event reported, not the IMAP
UID the page was addressed by — and a message whose sequence number
differs from its UID is therefore missed when its listed id is decoded
and used to address the mailbox by UID, as `get`, `delete`,
`markAsRead` and `markAsUnread` do. -/
theorem imap_list_ids_are_seqnos :
    (∀ (mbox : List MailboxMsg) (folder : String) (maxResults : Nat),
       listIds mbox folder maxResults =
         (mbox.filter
             (fun m => (listPageUids mbox maxResults).contains m.uid)).map
           (fun m => encodeId (normalizeMailbox folder) m.seqno)) ∧
    (∀ (mbox : List MailboxMsg) (m : MailboxMsg),
       m ∈ mbox → m.uid ≠ m.seqno → m ∉ uidTargets mbox m.seqno) := by
  constructor
  · intro mbox folder maxResults
    simp [listIds, fetchMessages, List.map_map]
  · intro mbox m hm hne
    simp [uidTargets, List.mem_filter, hm]
    exact hne

/-- C10 witness: a mailbox holding UID 5 at sequence number 1 and UID 9
at sequence number 2 lists the ids `INBOX:1` and `INBOX:2`, and the
message with UID 5 is not among the messages addressed by UID 1. -/
theorem imap_list_ids_are_seqnos_witness :
    listIds [⟨5, 1, "a"⟩, ⟨9, 2, "b"⟩] "inbox" 2 = ["INBOX:1", "INBOX:2"] ∧
    (⟨5, 1, "a"⟩ : MailboxMsg) ∉ uidTargets [⟨5, 1, "a"⟩, ⟨9, 2, "b"⟩] 1 :=
  ⟨(imap_list_ids_are_seqnos.1 [⟨5, 1, "a"⟩, ⟨9, 2, "b"⟩] "inbox" 2).trans
      (by decide),
   imap_list_ids_are_seqnos.2 [⟨5, 1, "a"⟩, ⟨9, 2, "b"⟩] ⟨5, 1, "a"⟩
      (by decide) (by decide)⟩

end ImapDriver
